import Mathlib

/-
A shallow embedding of `jcaas/__init__.py` (the sorting-hat destination
resolution pipeline).  Python dictionaries holding tool specifications are
modelled as a structure of optional fields (one per key the source ever
reads or writes); Python numbers are modelled as an int/float sum type with
exact rational semantics for floats; impure collaborators (the YAML
catalogs, the condor_status machine probe, the backend kill-switch files)
are passed in as explicit parameters.  String primitives are implemented
over character lists so that every definition evaluates by kernel
reduction.
-/

deriving instance DecidableEq for Except

namespace Jcaas

/-- A Python number: either an `int` or a `float`.  Floats are modelled with
exact rational arithmetic. -/
inductive PyNum where
  | int (n : Int)
  | float (q : ℚ)
deriving DecidableEq

/-- The numeric value of a Python number. -/
def PyNum.toRat : PyNum → ℚ
  | .int n => (n : ℚ)
  | .float q => q

/-- Python `math.ceil` on an exact rational, as the negated floor of the
negation (an executable ceiling). -/
def pyCeil (q : ℚ) : Int := -(Rat.floor (-q))

/-- Python `int()` applied to a number: truncation toward zero. -/
def pyInt (q : ℚ) : Int := if 0 ≤ q then q.floor else pyCeil q

/-- Decimal digits of the fractional part of a nonnegative rational, with
fuel bounding the number of digits (all values arising here terminate). -/
def decDigits : ℚ → Nat → String
  | _, 0 => ""
  | q, Nat.succ fuel =>
    if q = 0 then "" else
      let q10 := q * 10
      let d := q10.floor
      toString d ++ decDigits (q10 - (d : ℚ)) fuel

/-- Integer part, dot, fractional digits of a nonnegative rational
(`"4.0"` for `4`), matching Python `str()` on finite-decimal floats. -/
def floatIntFrac (a : ℚ) : String :=
  toString a.floor ++ "." ++
    (if a - (a.floor : ℚ) = 0 then "0" else decDigits (a - (a.floor : ℚ)) 25)

/-- Python `str()` of a float whose value is a finite-decimal rational. -/
def floatRepr (q : ℚ) : String :=
  if q < 0 then "-" ++ floatIntFrac (-q) else floatIntFrac q

/-- Python `str()` / `'%s'` rendering of a number. -/
def PyNum.pyStr : PyNum → String
  | .int n => toString n
  | .float q => floatRepr q

/-- Python `min(a, b)` where `a` is a number and `b` an int: returns the
first argument when `a <= b` (preserving its int/float type), else `b`. -/
def pyMin (a : PyNum) (b : Int) : PyNum :=
  if a.toRat ≤ (b : ℚ) then a else .int b

/-- Whether the first character list is a prefix of the second. -/
def isPrefixChars : List Char → List Char → Bool
  | [], _ => true
  | _ :: _, [] => false
  | a :: as, b :: bs => a == b && isPrefixChars as bs

/-- Whether the first character list occurs contiguously in the second. -/
def containsChars (sub : List Char) : List Char → Bool
  | [] => sub.isEmpty
  | c :: cs => isPrefixChars sub (c :: cs) || containsChars sub cs

/-- Python's substring test `sub in s`. -/
def pyIn (sub s : String) : Bool := containsChars sub.data s.data

/-- Python's `s.startswith(pre)`. -/
def pyStartsWith (pre s : String) : Bool := isPrefixChars pre.data s.data

/-- Python's `s[n:]`. -/
def pyDrop (s : String) (n : Nat) : String := String.mk (s.data.drop n)

/-- One pass of Python `s.split(sep)` over a character list. -/
def splitChar : List Char → Char → List (List Char)
  | [], _ => [[]]
  | c :: cs, sep =>
    let rest := splitChar cs sep
    if c == sep then [] :: rest
    else
      match rest with
      | [] => [[c]]
      | r :: rs => (c :: r) :: rs

/-- Python `s.split(sep)` for a single-character separator. -/
def pySplit (s : String) (sep : Char) : List String :=
  (splitChar s.data sep).map (fun l => String.mk l)

/-- Code-point lexicographic comparison on character lists (Python's string
ordering). -/
def charListLe : List Char → List Char → Bool
  | [], _ => true
  | _ :: _, [] => false
  | a :: as, b :: bs =>
    if a.toNat < b.toNat then true
    else if b.toNat < a.toNat then false
    else charListLe as bs

/-- Python's `<=` on strings. -/
def strLe (a b : String) : Bool := charListLe a.data b.data

/-- Insert a string into a sorted list (insertion step of `sorted`). -/
def insertSorted (x : String) : List String → List String
  | [] => [x]
  | y :: ys => if strLe x y then x :: y :: ys else y :: insertSorted x ys

/-- Python `sorted` on a list of strings (ascending, code-point order). -/
def sortStrings (l : List String) : List String :=
  l.foldr insertSorted []

/-- Maximum resources (source lines 17-21). -/
def CONDOR_MAX_CORES : Int := 40

/-- Condor memory ceiling, `250 - 2` GB. -/
def CONDOR_MAX_MEM : Int := 250 - 2

/-- SGE core ceiling. -/
def SGE_MAX_CORES : Int := 24

/-- SGE memory ceiling, `256 - 2` GB. -/
def SGE_MAX_MEM : Int := 256 - 2

/-- A tool specification dictionary: one optional field per key the source
reads or writes.  `none` models key absence.  Note the distinct
`requirement` (singular, written by `reroute_to_dedicated`'s no-training
branch) and `requirements` keys. -/
structure ToolSpec where
  cores : Option Int := none
  mem : Option PyNum := none
  runner : Option String := none
  env : Option (List (String × String)) := none
  params : Option (List (String × String)) := none
  priority : Option Int := none
  tmp : Option String := none
  requirements : Option String := none
  rank : Option String := none
  name : Option String := none
  nativeSpecExtra : Option String := none
  requirement : Option String := none
deriving DecidableEq

/-- One when a key is present, 0 when absent. -/
def keyCt {α : Type} : Option α → Nat
  | none => 0
  | some _ => 1

/-- Python `len(tool_spec.keys())`: how many of the modelled keys are present. -/
def ToolSpec.keyCount (s : ToolSpec) : Nat :=
  keyCt s.cores + keyCt s.mem + keyCt s.runner + keyCt s.env + keyCt s.params +
    keyCt s.priority + keyCt s.tmp + keyCt s.requirements + keyCt s.rank +
    keyCt s.name + keyCt s.nativeSpecExtra + keyCt s.requirement

/-- Function `get_tool_id` (source lines 36-57): shorten a fully qualified tool id.
`tool_id.count('/') == 0` keeps it; exactly five separators parse as
`server/_/owner/repo/name/version` and return `name`; anything else is
returned unchanged. -/
def get_tool_id (tool_id : String) : String :=
  let parts := pySplit tool_id '/'
  if parts.length == 1 then tool_id
  else if parts.length == 6 then parts.getD 4 ""
  else tool_id

/-- The base of `name_it` (source lines 61-66), before the `tmp`/`name`
suffixes. -/
def name_base (s : ToolSpec) : String :=
  if s.cores.isSome then
    toString (s.cores.getD 1) ++ "cores_" ++ (s.mem.getD (.int 4)).pyStr ++ "G"
  else if s.keyCount == 0 || (s.keyCount == 1 && s.runner.isSome) then
    s.runner.getD "sge" ++ "_default"
  else
    (s.mem.getD (.int 4)).pyStr ++ "G_memory"

/-- Function `name_it` (source lines 60-74): derive the human readable destination
id from the resource shape, with a `_large` suffix for large-tmp specs and
a trailing `_<name>` suffix when a name override is present. -/
def name_it (s : ToolSpec) : String :=
  let n := name_base s
  let n := if s.tmp == some "large" then n ++ "_large" else n
  match s.name with
  | some nm => n ++ "_" ++ nm
  | none => n

/-- Effective memory of `build_spec` (source lines 87-98): the requested
`mem` (default 4), clamped to the active backend's ceiling. -/
def effective_mem (s : ToolSpec) : PyNum :=
  let destination := s.runner.getD "sge"
  let m := s.mem.getD (.int 4)
  if destination == "sge" then pyMin m SGE_MAX_MEM
  else if pyIn "condor" destination then pyMin m CONDOR_MAX_MEM
  else m

/-- Effective cores of `build_spec` (source lines 87-98): the requested
`cores` (default 1), clamped to the active backend's ceiling. -/
def effective_cores (s : ToolSpec) : Int :=
  let destination := s.runner.getD "sge"
  let c := s.cores.getD 1
  if destination == "sge" then min c SGE_MAX_CORES
  else if pyIn "condor" destination then min c CONDOR_MAX_CORES
  else c

/-- The template substitution context of `build_spec` (source lines
100-106). -/
structure Kwargs where
  PRIORITY : Int
  MEMORY : String
  PARALLELISATION : String
  NATIVE_SPEC_EXTRA : String
deriving DecidableEq

/-- The substitution context after the backend specific derivation of
`build_spec` (source lines 100-147).  On SGE with `cores` present the
per-core `MEMORY` is `int(1024 * tool_memory / tool_spec['cores'])`
megabytes, dividing by the raw requested core count. -/
def buildKwargs (s : ToolSpec) : Kwargs :=
  let destination := s.runner.getD "sge"
  let tool_memory := effective_mem s
  let tool_cores := effective_cores s
  let base : Kwargs :=
    { PRIORITY := s.priority.getD 128
      MEMORY := tool_memory.pyStr ++ "G"
      PARALLELISATION := ""
      NATIVE_SPEC_EXTRA := "" }
  if destination == "sge" then
    let k :=
      match s.cores with
      | some c =>
        { base with
            PARALLELISATION := "-pe \"pe*\" " ++ toString tool_cores
            MEMORY := toString (pyInt (1024 * tool_memory.toRat / (c : ℚ))) ++ "M" }
      | none => base
    let k :=
      match s.nativeSpecExtra with
      | some nse => { k with NATIVE_SPEC_EXTRA := nse }
      | none => k
    if s.tmp == some "large" then
      { k with NATIVE_SPEC_EXTRA := k.NATIVE_SPEC_EXTRA ++ "-l has_largetmp=1" }
    else k
  else if pyIn "condor" destination then
    match s.cores with
    | some _ => { base with PARALLELISATION := toString tool_cores }
    | none => base
  else base

/-- The raw allocation record of `build_spec` (source lines 83, 119-120,
135, 141). -/
structure Raw where
  mem : Option PyNum := none
  cpu : Option Int := none
deriving DecidableEq

/-- The raw allocation details recorded by `build_spec`. -/
def build_raw (s : ToolSpec) : Raw :=
  let destination := s.runner.getD "sge"
  if destination == "sge" then
    match s.cores with
    | some _ => { mem := some (effective_mem s), cpu := some (effective_cores s) }
    | none => {}
  else if pyIn "condor" destination then
    { mem := if s.mem.isSome then some (effective_mem s) else none
      cpu := match s.cores with | some _ => some (effective_cores s) | none => none }
  else {}

/-- Lookup in an insertion-ordered string dictionary. -/
def listLookup (l : List (String × String)) (k : String) : Option String :=
  (l.find? (fun p => p.1 == k)).map (fun p => p.2)

/-- Python dict assignment `d[k] = v`: overwrite in place when the key is
present, else append. -/
def listUpdate (l : List (String × String)) (k v : String) : List (String × String) :=
  if l.any (fun p => p.1 == k) then
    l.map (fun p => if p.1 == k then (k, v) else p)
  else l ++ [(k, v)]

/-- Python `base.update(overlay)`. -/
def listUpdateAll (base overlay : List (String × String)) : List (String × String) :=
  overlay.foldl (fun acc p => listUpdate acc p.1 p.2) base

/-- Python `str(v).format(**kwargs)` (source lines 151, 153): textual substitution
of the four context tokens into a template value. -/
def renderTemplate (kw : Kwargs) (v : String) : String :=
  ((((v.replace "\x7bPRIORITY\x7d" (toString kw.PRIORITY)).replace
        "\x7bMEMORY\x7d" kw.MEMORY).replace
      "\x7bPARALLELISATION\x7d" kw.PARALLELISATION).replace
    "\x7bNATIVE_SPEC_EXTRA\x7d" kw.NATIVE_SPEC_EXTRA)

/-- A per-backend base template from `destination_specifications.yaml`
(external data, consumed read-only). -/
structure BackendTemplate where
  env : List (String × String) := []
  params : List (String × String) := []
deriving DecidableEq

/-- The parameter-dictionary rewrites of `build_spec` that happen before the
tool's own `params` overlay (source lines 108-109, 130-131, 143-147):
newline cleanup of `nativeSpecification`, the SGE-only `_JAVA_OPTIONS`
stripping rule, and the Condor-only verbatim `requirements`/`rank` copies. -/
def build_params_pre (s : ToolSpec) (params0 : List (String × String)) :
    List (String × String) :=
  let destination := s.runner.getD "sge"
  let p :=
    match listLookup params0 "nativeSpecification" with
    | some v => listUpdate params0 "nativeSpecification" ((v.replace "\n" " ").trim)
    | none => params0
  if destination == "sge" then
    if (s.env.getD []).any (fun q => q.1 == "_JAVA_OPTIONS") then
      match listLookup p "nativeSpecification" with
      | some v => listUpdate p "nativeSpecification" (v.replace "-v _JAVA_OPTIONS" "")
      | none => p
    else p
  else if pyIn "condor" destination then
    let p := match s.requirements with | some r => listUpdate p "requirements" r | none => p
    match s.rank with | some r => listUpdate p "rank" r | none => p
  else p

/-- The result four-tuple of `build_spec` (source line 163). -/
structure BuildResult where
  env : List (String × String)
  params : List (String × String)
  runner : String
  raw : Raw
deriving DecidableEq

/-- Function `build_spec` (source lines 77-163): select the backend template by the
spec's `runner` (default "sge"), clamp resources, derive the substitution
context, overlay the tool's `env`/`params`, render every value, and map the
catalog runner to the transport-level runner identity. -/
def build_spec (specs : String → Option BackendTemplate) (s : ToolSpec) : BuildResult :=
  let destination := s.runner.getD "sge"
  let tmpl := (specs destination).getD {}
  let kw := buildKwargs s
  let env1 := listUpdateAll tmpl.env (s.env.getD [])
  let env2 := env1.map (fun p => (p.1, renderTemplate kw p.2))
  let params1 := listUpdateAll (build_params_pre s tmpl.params) (s.params.getD [])
  let params2 := params1.map (fun p => (p.1, renderTemplate kw p.2))
  let runner :=
    if destination == "sge" then "drmaa"
    else if pyIn "condor" destination then "condor"
    else "local"
  { env := env2, params := params2, runner := runner, raw := build_raw s }

/-- Function `avoid_machines` (source lines 226-251) over an explicit machine
inventory (the impure `get_training_machines` probe is passed in as the
`inv` parameter, keyed by group): remove from the training inventory every
machine whose name contains a permissible identifier, then render the rest
as a sorted conjunction of `machine != "<name>"` clauses. -/
def avoid_machines (inv : String → List String) (permissible : List String) : String :=
  let machines := (inv "training").eraseDups
  let to_remove := machines.filter (fun m => permissible.any (fun allowed => pyIn allowed m))
  let kept := machines.filter (fun m => !(to_remove.contains m))
  let data := (sortStrings kept).map (fun m => "(machine != \"" ++ m ++ "\")")
  if data.length != 0 then "( " ++ String.intercalate " && " data ++ " )" else ""

/-- Modelled from the spec (refinement comparison for the Exclude affinity
operation): the machines of the inventory snapshot not matched by any
permissible-group identifier, rendered as a conjunction of
`machine != "<name>"` clauses sorted by machine name, the empty string when
no machines remain. -/
def avoid_machines_spec (inv : String → List String) (permissible : List String) : String :=
  let kept := ((inv "training").eraseDups).filter
    (fun m => !(permissible.any (fun allowed => pyIn allowed m)))
  let data := (sortStrings kept).map (fun m => "(machine != \"" ++ m ++ "\")")
  if data.isEmpty then "" else "( " ++ String.intercalate " && " data ++ " )"

/-- Function `prefer_machines` (source lines 254-276): machines of the group's
inventory whose name contains one of the identifiers, rendered as a sorted
disjunction of `machine == "<name>"` clauses (the source's nested union
loops collect exactly the machines matching some identifier). -/
def prefer_machines (inv : String → List String) (training_identifiers : List String)
    (machine_group : String) : String :=
  let machines := (inv machine_group).eraseDups
  let allowed := machines.filter (fun m => training_identifiers.any (fun i => pyIn i m))
  let data := (sortStrings allowed).map (fun m => "(machine == \"" ++ m ++ "\")")
  if data.length != 0 then "( " ++ String.intercalate " || " data ++ " )" else ""

/-- Function `reroute_to_dedicated` (source lines 279-304), fused with the
`tool_spec.update(...)` call at its single call site (source line 313):
with no `training-` roles, a Condor spec gains a `requirement` (singular)
key avoiding all training machines; with training roles the spec is forced
onto Condor with `requirements`/`rank` affinity expressions. -/
def reroute_to_dedicated (inv : String → List String) (s : ToolSpec)
    (user_roles : List String) : ToolSpec :=
  let training_roles := user_roles.filterMap
    (fun role => if pyStartsWith "training-" role then some (pyDrop role 9) else none)
  if training_roles.isEmpty then
    if s.runner == some "condor" then
      { s with requirement := some (avoid_machines inv []) }
    else s
  else
    { s with
        requirements := some (avoid_machines inv training_roles)
        rank := some (prefer_machines inv training_roles "training")
        runner := some "condor" }

/-- Function `_finalize_tool_spec` (source lines 307-333): catalog lookup by short
tool id, role based rerouting, memory scaling, then the two hardcoded
special cases that replace the record wholesale. -/
def _finalize_tool_spec (catalog : String → Option ToolSpec) (inv : String → List String)
    (tool_id : String) (user_roles : List String) (memory_scale : ℚ) : ToolSpec :=
  let tool := get_tool_id tool_id
  let s := (catalog tool).getD {}
  let s := reroute_to_dedicated inv s user_roles
  let s := { s with mem := some (.float ((s.mem.getD (.int 4)).toRat * memory_scale)) }
  if tool_id == "upload1" then
    { mem := some (.float (3 / 10))
      runner := some "condor"
      requirements := some (prefer_machines inv ["upload"] "upload")
      env := some [("TEMP", "/data/1/galaxy_db/tmp/")] }
  else if tool_id == "__SET_METADATA__" then
    { mem := some (.float (3 / 10))
      runner := some "condor"
      requirements := some (prefer_machines inv ["metadata"] "metadata") }
  else s

/-- Function `convert_condor_to_sge` (source lines 336-341): force the runner to
"sge" and round `mem` up to a whole number (`int(math.ceil(...))`); `none`
models the `KeyError` raised when the spec has no `mem` key. -/
def convert_condor_to_sge (s : ToolSpec) : Option ToolSpec :=
  match s.mem with
  | none => none
  | some m => some { s with runner := some "sge", mem := some (.int (pyCeil m.toRat)) }

/-- Function `convert_sge_to_condor` (source lines 344-346). -/
def convert_sge_to_condor (s : ToolSpec) : ToolSpec :=
  { s with runner := some "condor" }

/-- The fatal outcomes of the local pipeline (`raise` sites at source lines
355, 379, and the `KeyError` reachable through `convert_condor_to_sge`). -/
inductive GErr where
  | bothDown
  | unauthorized
  | missingMem
deriving DecidableEq

/-- Function `handle_downed_runners` (source lines 349-365): fail when both backends
are down; convert a `condor` spec to SGE when only SGE is up; in the `sge`
branch the source again calls `convert_condor_to_sge` (not the symmetric
`convert_sge_to_condor`). -/
def handle_downed_runners (avail_condor avail_drmaa : Bool) (s : ToolSpec) :
    Except GErr ToolSpec :=
  if !avail_condor && !avail_drmaa then .error .bothDown
  else if s.runner.getD "local" == "condor" then
    if avail_drmaa && !avail_condor then
      match convert_condor_to_sge s with
      | some t => .ok t
      | none => .error .missingMem
    else .ok s
  else if s.runner.getD "local" == "sge" then
    if avail_condor && !avail_drmaa then
      match convert_condor_to_sge s with
      | some t => .ok t
      | none => .error .missingMem
    else .ok s
  else .ok s

/-- The administrative override block of `_gateway` (source lines 371-381):
the two force-to-backend roles, then the `echo_main_env` authorization
gate. -/
def apply_admin_overrides (tool_id : String) (user_roles : List String)
    (user_email : String) (s : ToolSpec) : Except GErr ToolSpec :=
  let s := if user_roles.contains "gx-admin-force-jobs-to-condor" then
    convert_sge_to_condor s else s
  match (if user_roles.contains "gx-admin-force-jobs-to-drmaa" then
      match convert_condor_to_sge s with
      | some t => Except.ok t
      | none => Except.error GErr.missingMem
    else Except.ok s) with
  | .error e => .error e
  | .ok s =>
    if tool_id == "echo_main_env" then
      if user_email == "hxr@informatik.uni-freiburg.de" then
        .ok (convert_sge_to_condor s)
      else .error .unauthorized
    else .ok s

/-- Function `_gateway` (source lines 368-386): the local resolution pipeline —
finalize the tool spec, apply the downed-runner fallback, apply the admin
overrides, and build the full spec. -/
def _gateway (specs : String → Option BackendTemplate) (catalog : String → Option ToolSpec)
    (inv : String → List String) (avail_condor avail_drmaa : Bool) (tool_id : String)
    (user_roles : List String) (user_email : String) (memory_scale : ℚ) :
    Except GErr (BuildResult × ToolSpec) :=
  match handle_downed_runners avail_condor avail_drmaa
      (_finalize_tool_spec catalog inv tool_id user_roles memory_scale) with
  | .error e => .error e
  | .ok s1 =>
    match apply_admin_overrides tool_id user_roles user_email s1 with
    | .error e => .error e
    | .ok s4 => .ok (build_spec specs s4, s4)

/-- The resolution result handed back to the orchestrator (a
`JobDestination`, source lines 423-432). -/
structure JobDestination where
  id : String
  runner : String
  params : List (String × String)
  env : List (String × String)
  resubmit : List (String × String)
deriving DecidableEq

/-- Function `gateway` (source lines 407-432).  The remote authority (`_gateway2`)
computes the same pipeline and the retry loop always degrades to the local
`_gateway` on transport failure, so the resolution is modelled by the local
computation; the caller's user object is represented by its role list and
email. -/
def gateway (specs : String → Option BackendTemplate) (catalog : String → Option ToolSpec)
    (inv : String → List String) (avail_condor avail_drmaa : Bool) (tool_id : String)
    (user_roles : List String) (email : String) (memory_scale : ℚ) :
    Except GErr JobDestination :=
  match _gateway specs catalog inv avail_condor avail_drmaa tool_id user_roles email
      memory_scale with
  | .error e => .error e
  | .ok (r, spec) =>
    .ok { id := name_it spec
          runner := r.runner
          params := r.params
          env := r.env
          resubmit := [("any_failure", "resubmit_gateway")] }

/-- Function `resubmit_gateway` (source lines 435-446): re-run `gateway` with
`memory_scale = 1.5`, clear the resubmission rules, and append the
`_resubmit` suffix to the id. -/
def resubmit_gateway (specs : String → Option BackendTemplate)
    (catalog : String → Option ToolSpec) (inv : String → List String)
    (avail_condor avail_drmaa : Bool) (tool_id : String) (user_roles : List String)
    (email : String) : Except GErr JobDestination :=
  match gateway specs catalog inv avail_condor avail_drmaa tool_id user_roles email
      (3 / 2) with
  | .error e => .error e
  | .ok jd => .ok { jd with resubmit := [], id := jd.id ++ "_resubmit" }

/-- The two-machine inventory of the spec's affinity examples. -/
def inv2 : String → List String :=
  fun g => if g == "training" then ["a-training-1", "b-training-2"] else []

/-- An empty backend-template catalog (no entry for any backend). -/
def specs0 : String → Option BackendTemplate := fun _ => none

/-- An empty tool-destination catalog (every tool absent). -/
def cat0 : String → Option ToolSpec := fun _ => none

/-- An empty machine inventory. -/
def inv0 : String → List String := fun _ => []

/-- A concrete SGE spec requesting 3 cores and 4 GB. -/
def specC1 : ToolSpec := { runner := some "sge", cores := some 3, mem := some (.int 4) }

/-- A concrete Condor spec with fractional memory. -/
def specC3 : ToolSpec := { runner := some "condor", mem := some (.float (5 / 2)) }

/-- A concrete SGE spec requesting resources above both ceilings. -/
def specC4 : ToolSpec := { runner := some "sge", cores := some 100, mem := some (.int 1000) }

/-- The resubmission descriptor produced for an absent tool over empty
catalogs with both backends up. -/
def jdC6 : JobDestination :=
  { id := "6.0G_memory_resubmit", runner := "drmaa", params := [], env := [], resubmit := [] }

/-- A concrete memory-only spec with a large-tmp marker. -/
def specC9 : ToolSpec := { mem := some (.int 16), tmp := some "large" }

end Jcaas

namespace Jcaas

theorem ratFloor_eq (q : ℚ) : q.floor = ⌊q⌋ := by
  rw [Rat.floor_def', Rat.floor_def]

theorem pyCeil_eq (q : ℚ) : pyCeil q = ⌈q⌉ := by
  unfold pyCeil
  rw [ratFloor_eq, Int.floor_neg, neg_neg]

theorem pyInt_eq_floor (q : ℚ) (h : 0 ≤ q) : pyInt q = ⌊q⌋ := by
  simp [pyInt, h, ratFloor_eq]

theorem pyMin_toRat (a : PyNum) (b : Int) : (pyMin a b).toRat = min a.toRat (b : ℚ) := by
  unfold pyMin
  split
  · next h => exact (min_eq_left h).symm
  · next h => exact ((min_eq_right (le_of_lt (lt_of_not_le h))).symm)

unseal Rat.mul Rat.add Rat.sub Rat.inv in
/-- C1: on the SGE backend with a `cores` key, the rendered `MEMORY`
substitution value is not `ceil(1024 * mem / cores)` megabytes: at 3 cores
and 4 GB the code renders `int(...)` = 1365 MB while the ceiling is 1366. -/
theorem sge_memory_not_ceil :
    (buildKwargs specC1).MEMORY = "1365M" ∧ (⌈(1024 : ℚ) * 4 / 3⌉ : Int) = 1366 := by
  constructor
  · decide
  · rw [← pyCeil_eq]; decide

/-- C1 (amended): on the SGE backend with a `cores` key, for positive
requested cores and positive effective memory, the rendered `MEMORY`
substitution value equals `floor(1024 * mem / cores)` megabytes (Python
`int()` truncation), where `mem` is the clamped memory and `cores` the raw
requested core count. -/
theorem sge_memory_megabytes (s : ToolSpec) (c : Int)
    (hr : s.runner.getD "sge" = "sge") (hc : s.cores = some c) (hcpos : 0 < c)
    (hm : 0 < (effective_mem s).toRat) :
    (buildKwargs s).MEMORY =
      toString ⌊(1024 : ℚ) * (effective_mem s).toRat / (c : ℚ)⌋ ++ "M" := by
  have hcq : (0 : ℚ) < (c : ℚ) := by exact_mod_cast hcpos
  have hnn : (0 : ℚ) ≤ 1024 * (effective_mem s).toRat / (c : ℚ) :=
    div_nonneg (mul_nonneg (by norm_num) (le_of_lt hm)) (le_of_lt hcq)
  unfold buildKwargs
  rw [hr, hc]
  simp only [beq_self_eq_true, if_true]
  cases s.nativeSpecExtra <;>
    cases htmp : (s.tmp == some "large") <;>
      simp [htmp, pyInt_eq_floor _ hnn]

unseal Rat.mul Rat.add Rat.sub Rat.inv in
/-- Witness for C1 (amended) at 3 cores and 4 GB. -/
theorem sge_memory_megabytes_witness :
    (0 : Int) < 3 ∧ 0 < (effective_mem specC1).toRat ∧
    (buildKwargs specC1).MEMORY =
      toString ⌊(1024 : ℚ) * (effective_mem specC1).toRat / ((3 : Int) : ℚ)⌋ ++ "M" :=
  ⟨by decide, by decide, sge_memory_megabytes specC1 3 rfl rfl (by decide) (by decide)⟩

/-- C2: with the spec targeting "sge", SGE down and Condor up, the
downed-runner fallback does not convert to the Condor family: the source's
`sge` branch calls `convert_condor_to_sge`, so the spec keeps
`runner = "sge"` (the backend that is down) instead of becoming "condor". -/
theorem sge_down_branch_keeps_sge :
    handle_downed_runners true false { runner := some "sge", mem := some (PyNum.int 4) } =
      Except.ok { runner := some "sge", mem := some (PyNum.int 4) } := by
  decide

/-- C3 counterexample: a spec whose runner "condor2" is in the Condor
family (it contains "condor") is not converted when Condor is down and SGE
is up — `handle_downed_runners` compares the runner for equality with
"condor" only, so the spec passes through unchanged. -/
theorem condor_family_not_converted :
    pyIn "condor" "condor2" = true ∧
    handle_downed_runners false true { runner := some "condor2", mem := some (PyNum.int 4) } =
      Except.ok { runner := some "condor2", mem := some (PyNum.int 4) } ∧
    (some "condor2" : Option String) ≠ some "sge" := by
  refine ⟨by decide, by decide, by decide⟩

/-- C3 (amended): for a spec whose runner is exactly "condor" with a `mem`
key, when the Condor probe is down and the SGE probe is up the resolution
converts the spec to backend "sge" with `mem` rounded up to the next whole
integer. -/
theorem condor_exact_converted_to_sge (s : ToolSpec) (m : PyNum)
    (hr : s.runner = some "condor") (hm : s.mem = some m) :
    handle_downed_runners false true s =
      Except.ok { s with runner := some "sge", mem := some (PyNum.int ⌈m.toRat⌉) } := by
  simp [handle_downed_runners, hr, convert_condor_to_sge, hm, pyCeil_eq]

/-- Witness for C3 (amended): a Condor spec with 2.5 GB resolves to SGE
with 3 GB. -/
theorem condor_exact_converted_to_sge_witness :
    handle_downed_runners false true specC3 =
      Except.ok { specC3 with runner := some "sge",
                              mem := some (PyNum.int ⌈(PyNum.float (5 / 2)).toRat⌉) } :=
  condor_exact_converted_to_sge specC3 (PyNum.float (5 / 2)) rfl rfl

/-- C4: the effective cores and memory computed by the Spec Builder never
exceed the active backend's ceiling — at most 24 cores and 254 GB on
"sge", at most 40 cores and 248 GB on any Condor-family backend. -/
theorem clamped_resources_bounded (s : ToolSpec) :
    (s.runner.getD "sge" = "sge" →
      effective_cores s ≤ 24 ∧ (effective_mem s).toRat ≤ 254) ∧
    (pyIn "condor" (s.runner.getD "sge") = true ∧ s.runner.getD "sge" ≠ "sge" →
      effective_cores s ≤ 40 ∧ (effective_mem s).toRat ≤ 248) := by
  constructor
  · intro h
    unfold effective_cores effective_mem
    simp only [h, beq_self_eq_true, if_true]
    refine ⟨le_trans (min_le_right _ _) (by norm_num [SGE_MAX_CORES]), ?_⟩
    rw [pyMin_toRat]
    exact le_trans (min_le_right _ _) (by norm_num [SGE_MAX_MEM])
  · rintro ⟨h1, h2⟩
    unfold effective_cores effective_mem
    have hb : (s.runner.getD "sge" == "sge") = false := beq_eq_false_iff_ne.mpr h2
    simp only [hb, h1, Bool.false_eq_true, if_false, if_true]
    refine ⟨le_trans (min_le_right _ _) (by norm_num [CONDOR_MAX_CORES]), ?_⟩
    rw [pyMin_toRat]
    exact le_trans (min_le_right _ _) (by norm_num [CONDOR_MAX_MEM])

/-- Witness for C4: a spec requesting 100 cores and 1000 GB on "sge" is
clamped within the ceiling. -/
theorem clamped_resources_bounded_witness :
    effective_cores specC4 ≤ 24 ∧ (effective_mem specC4).toRat ≤ 254 :=
  (clamped_resources_bounded specC4).1 rfl

/-- C5: when both availability probes report down, the local resolution
pipeline fails with the fatal both-clusters-down error and produces no
descriptor, for every input. -/
theorem both_down_fatal (specs : String → Option BackendTemplate)
    (catalog : String → Option ToolSpec) (inv : String → List String) (tool_id : String)
    (user_roles : List String) (email : String) (memory_scale : ℚ) :
    gateway specs catalog inv false false tool_id user_roles email memory_scale =
      Except.error GErr.bothDown := rfl

/-- C9: the descriptor id derived from a ToolSpec: `{cores:2, mem:8}`
yields "2cores_8G"; the empty spec and `{runner:"sge"}` yield
"sge_default"; `{mem:16}` yields "16G_memory"; and any spec carrying
`tmp:"large"` gets "_large" appended to its base name (before the optional
name suffix). -/
theorem name_it_shapes :
    name_it { cores := some 2, mem := some (PyNum.int 8) } = "2cores_8G" ∧
    name_it {} = "sge_default" ∧
    name_it { runner := some "sge" } = "sge_default" ∧
    name_it { mem := some (PyNum.int 16) } = "16G_memory" ∧
    ∀ s : ToolSpec, s.tmp = some "large" →
      name_it s =
        (match s.name with
          | some nm => name_base s ++ "_large" ++ "_" ++ nm
          | none => name_base s ++ "_large") := by
  refine ⟨by decide, by decide, by decide, by decide, ?_⟩
  intro s h
  unfold name_it
  rw [h]
  cases hn : s.name <;> simp [hn]

/-- Witness for C9 at `{mem:16, tmp:"large"}`. -/
theorem name_it_shapes_witness :
    name_it specC9 = name_base specC9 ++ "_large" :=
  name_it_shapes.2.2.2.2 specC9 rfl

theorem filter_not_contains_filter (l : List String) (p : String → Bool) :
    l.filter (fun m => !((l.filter p).contains m)) = l.filter (fun m => !(p m)) := by
  apply List.filter_congr
  intro m hm
  have hc : ((l.filter p).contains m) = p m := by
    cases hpm : p m
    · simp [List.elem_eq_mem, List.mem_filter, hpm]
    · simp [List.elem_eq_mem, List.mem_filter, hm, hpm]
  rw [hc]

/-- C8 counterexample: over the inventory
`{"a-training-1", "b-training-2"}`, `Exclude(["a"])` yields the empty
string — the identifier "a" occurs as a substring of both machine names
(inside "training"), so both are removed — not the claimed single-clause
conjunction. -/
theorem avoid_machines_single_id :
    avoid_machines inv2 ["a"] = "" ∧
    ("" : String) ≠ "( (machine != \"b-training-2\") )" :=
  ⟨by decide, by decide⟩

/-- C8 (amended): `avoid_machines` renders exactly the machines of the
inventory snapshot not matched (as a substring) by any permissible-group
identifier, as a conjunction of `machine != "<name>"` clauses sorted by
name, and the empty string when no machines remain; `Exclude([])` over
`{"a-training-1", "b-training-2"}` yields the two-clause conjunction, while
`Exclude(["a"])` over the same inventory yields `""` (the identifier "a"
also occurs inside "b-training-2"). -/
theorem avoid_machines_exclude :
    (∀ (inv : String → List String) (permissible : List String),
        avoid_machines inv permissible = avoid_machines_spec inv permissible) ∧
    avoid_machines inv2 [] =
      "( (machine != \"a-training-1\") && (machine != \"b-training-2\") )" ∧
    avoid_machines inv2 ["a"] = "" := by
  refine ⟨?_, by decide, by decide⟩
  intro inv permissible
  unfold avoid_machines avoid_machines_spec
  dsimp only
  rw [filter_not_contains_filter]
  cases hd : (sortStrings (((inv "training").eraseDups).filter
      (fun m => !(permissible.any (fun allowed => pyIn allowed m))))).map
      (fun m => "(machine != \"" ++ m ++ "\")") <;>
    simp [hd]

unseal Rat.mul Rat.add Rat.sub Rat.inv in
/-- C6 counterexample: for a tool absent from the catalog (empty catalogs,
both backends up), the non-resubmission descriptor id is "4.0G_memory"
(memory scale 1.0) while the resubmission variant's id is
"6.0G_memory_resubmit" (memory scale 1.5) — not the non-resubmission id
plus the "_resubmit" suffix. -/
theorem resubmit_id_not_plain_suffix :
    (resubmit_gateway specs0 cat0 inv0 true true "mytool" [] "").map JobDestination.id =
      Except.ok "6.0G_memory_resubmit" ∧
    (gateway specs0 cat0 inv0 true true "mytool" [] "" 1).map JobDestination.id =
      Except.ok "4.0G_memory" ∧
    ("6.0G_memory_resubmit" : String) ≠ "4.0G_memory" ++ "_resubmit" :=
  ⟨by decide, by decide, by decide⟩

/-- C6 (amended): whenever the resubmission variant succeeds, its
descriptor has an empty resubmission-rule list and an id equal to the id
the non-resubmission variant produces for the same input at memory scale
1.5, plus the fixed "_resubmit" suffix. -/
theorem resubmit_strips_and_suffixes (specs : String → Option BackendTemplate)
    (catalog : String → Option ToolSpec) (inv : String → List String)
    (avail_condor avail_drmaa : Bool) (tool_id : String) (user_roles : List String)
    (email : String) (jd : JobDestination)
    (h : resubmit_gateway specs catalog inv avail_condor avail_drmaa tool_id user_roles
        email = Except.ok jd) :
    jd.resubmit = [] ∧
    ∃ jd2, gateway specs catalog inv avail_condor avail_drmaa tool_id user_roles email
        (3 / 2) = Except.ok jd2 ∧ jd.id = jd2.id ++ "_resubmit" := by
  unfold resubmit_gateway at h
  cases hg : gateway specs catalog inv avail_condor avail_drmaa tool_id user_roles email
      (3 / 2) with
  | error e => rw [hg] at h; exact absurd h (by simp)
  | ok jd2 =>
    rw [hg] at h
    injection h with h2
    subst h2
    exact ⟨rfl, jd2, rfl, rfl⟩

unseal Rat.mul Rat.add Rat.sub Rat.inv in
/-- Witness for C6 (amended) at the empty catalogs with both backends up. -/
theorem resubmit_strips_and_suffixes_witness :
    jdC6.resubmit = [] ∧
    ∃ jd2, gateway specs0 cat0 inv0 true true "mytool" [] "" (3 / 2) = Except.ok jd2 ∧
      jdC6.id = jd2.id ++ "_resubmit" :=
  resubmit_strips_and_suffixes specs0 cat0 inv0 true true "mytool" [] "" jdC6 (by decide)

unseal Rat.mul Rat.add Rat.sub Rat.inv in
/-- C7 counterexample: for tool id "upload1" with both backends up but the
caller holding the "gx-admin-force-jobs-to-drmaa" admin role, the resolved
spec has runner "sge" (not in the Condor family) and mem 1, not 0.3. -/
theorem upload1_overridden_by_drmaa_role :
    (_gateway specs0 cat0 inv0 true true "upload1" ["gx-admin-force-jobs-to-drmaa"] "" 1).map
        (fun p => (p.2.runner, p.2.mem)) = Except.ok (some "sge", some (PyNum.int 1)) ∧
    pyIn "condor" "sge" = false ∧
    (PyNum.int 1) ≠ PyNum.float (3 / 10) :=
  ⟨by decide, by decide, by decide⟩

/-- C7 (amended): for tool id "upload1" — regardless of any catalog
override for that id, of the user roles, and of the memory-scale factor —
provided Condor is available and the caller does not hold the
force-to-drmaa admin role, the resolution yields runner "condor" with mem
0.3. -/
theorem upload1_condor_mem (specs : String → Option BackendTemplate)
    (catalog : String → Option ToolSpec) (inv : String → List String) (avail_drmaa : Bool)
    (user_roles : List String) (email : String) (memory_scale : ℚ)
    (hd : user_roles.contains "gx-admin-force-jobs-to-drmaa" = false) :
    (_gateway specs catalog inv true avail_drmaa "upload1" user_roles email memory_scale).map
        (fun p => (p.2.runner, p.2.mem)) =
      Except.ok (some "condor", some (PyNum.float (3 / 10))) := by
  have hd2 : "gx-admin-force-jobs-to-drmaa" ∉ user_roles := by simpa using hd
  by_cases hc : "gx-admin-force-jobs-to-condor" ∈ user_roles <;>
    simp [_gateway, _finalize_tool_spec, handle_downed_runners, apply_admin_overrides,
      convert_sge_to_condor, hd2, hc, Except.map]

/-- Witness for C7 (amended) with no roles over empty catalogs. -/
theorem upload1_condor_mem_witness :
    (_gateway specs0 cat0 inv0 true true "upload1" [] "" 1).map
        (fun p => (p.2.runner, p.2.mem)) =
      Except.ok (some "condor", some (PyNum.float (3 / 10))) :=
  upload1_condor_mem specs0 cat0 inv0 true [] "" 1 rfl

theorem convert_condor_to_sge_some (s : ToolSpec) (h : s.mem.isSome = true) :
    ∃ t, convert_condor_to_sge s = some t ∧ t.mem.isSome = true := by
  cases hm : s.mem with
  | none => rw [hm] at h; simp at h
  | some m =>
    exact ⟨{ s with runner := some "sge", mem := some (.int (pyCeil m.toRat)) },
      by simp [convert_condor_to_sge, hm], rfl⟩

theorem handle_downed_runners_mem (a b : Bool) (s : ToolSpec) (h : s.mem.isSome = true) :
    handle_downed_runners a b s = Except.error GErr.bothDown ∨
    ∃ t, handle_downed_runners a b s = Except.ok t ∧ t.mem.isSome = true := by
  unfold handle_downed_runners
  split
  · exact Or.inl rfl
  · split
    · split
      · rcases convert_condor_to_sge_some s h with ⟨t, hc, ht⟩
        rw [hc]
        exact Or.inr ⟨t, rfl, ht⟩
      · exact Or.inr ⟨s, rfl, h⟩
    · split
      · split
        · rcases convert_condor_to_sge_some s h with ⟨t, hc, ht⟩
          rw [hc]
          exact Or.inr ⟨t, rfl, ht⟩
        · exact Or.inr ⟨s, rfl, h⟩
      · exact Or.inr ⟨s, rfl, h⟩

theorem echo_gate_ne_missing (tid email : String) (s : ToolSpec) :
    (if tid == "echo_main_env" then
        if email == "hxr@informatik.uni-freiburg.de" then Except.ok (convert_sge_to_condor s)
        else Except.error GErr.unauthorized
      else Except.ok s) ≠ Except.error GErr.missingMem := by
  split
  · split <;> simp
  · simp

theorem apply_admin_overrides_ne_missing (tid : String) (roles : List String)
    (email : String) (s : ToolSpec) (h : s.mem.isSome = true) :
    apply_admin_overrides tid roles email s ≠ Except.error GErr.missingMem := by
  unfold apply_admin_overrides
  dsimp only
  have h1 : (if roles.contains "gx-admin-force-jobs-to-condor" then convert_sge_to_condor s
      else s).mem.isSome = true := by
    split
    · simpa [convert_sge_to_condor] using h
    · exact h
  cases hr : roles.contains "gx-admin-force-jobs-to-drmaa" with
  | false =>
    simp only [hr, Bool.false_eq_true, if_false]
    exact echo_gate_ne_missing tid email _
  | true =>
    simp only [hr, if_true]
    rcases convert_condor_to_sge_some _ h1 with ⟨t, hc, _⟩
    rw [hc]
    exact echo_gate_ne_missing tid email t

/-- C10: for every tool id, role list, and memory-scale factor the record
returned by `_finalize_tool_spec` carries the `mem` key, so the memory
rounding of `convert_condor_to_sge` — as invoked from
`handle_downed_runners` and from the force-to-drmaa admin override inside
`_gateway` — never fails with a missing-key lookup. -/
theorem finalize_always_sets_mem (specs : String → Option BackendTemplate)
    (catalog : String → Option ToolSpec) (inv : String → List String)
    (avail_condor avail_drmaa : Bool) (tool_id : String) (user_roles : List String)
    (email : String) (memory_scale : ℚ) :
    (_finalize_tool_spec catalog inv tool_id user_roles memory_scale).mem.isSome = true ∧
    _gateway specs catalog inv avail_condor avail_drmaa tool_id user_roles email
        memory_scale ≠ Except.error GErr.missingMem := by
  have hfin : (_finalize_tool_spec catalog inv tool_id user_roles memory_scale).mem.isSome
      = true := by
    unfold _finalize_tool_spec
    dsimp only
    split
    · rfl
    · split <;> rfl
  refine ⟨hfin, ?_⟩
  intro hcontra
  unfold _gateway at hcontra
  rcases handle_downed_runners_mem avail_condor avail_drmaa _ hfin with hdown | ⟨t, hok, ht⟩
  · rw [hdown] at hcontra
    simp at hcontra
  · rw [hok] at hcontra
    dsimp only at hcontra
    cases happ : apply_admin_overrides tool_id user_roles email t with
    | error e =>
      rw [happ] at hcontra
      injection hcontra with h3
      subst h3
      exact apply_admin_overrides_ne_missing tool_id user_roles email t ht happ
    | ok s4 =>
      rw [happ] at hcontra
      simp at hcontra

end Jcaas
